import Mathlib

/-!
# Verification of the `reddit-reader` video assembly stage

Shallow embedding of `src/video_assembler.py` (class `VideoAssembler`) and the
data model it consumes (`src/config.py`, `src/script_generator.py`,
`src/audio_generator.py`, `src/character_generator.py`).

Durations, sizes and coordinates are modelled with `ℚ` (Python floats carry the
exact decimal literals appearing in the source: `0.3`, `0.75`, `0.35`, all
dyadic/decimal rationals).  Python `int(x)` truncation is modelled by `pyInt`.
Calls into the `moviepy` library that can raise are modelled by explicit
boolean failure oracles collected in `AssembleEnv`; the control flow around
them (which exceptions are caught, which propagate) is translated from the
source line by line.
-/

namespace RedditReader

/-- Python `int(x)`: truncation toward zero. -/
def pyInt (q : ℚ) : ℤ := if 0 ≤ q then ⌊q⌋ else ⌈q⌉

/-! ## Data model (`script_generator.py`, `audio_generator.py`,
`character_generator.py`, `config.py`) -/

/-- `script_generator.ScriptSegment`: one spoken/displayed unit.
`display_text` is already resolved (`__post_init__` defaults it to `text`). -/
structure ScriptSegment where
  type : String
  voice : String
  text : String
  display_text : String
deriving DecidableEq

/-- `script_generator.GeneratedScript` (the fields read by the assembler). -/
structure GeneratedScript where
  story_id : String
  title : String
  subreddit : String
  segments : List ScriptSegment
deriving DecidableEq

/-- `audio_generator.AudioSegment` (the fields the assembler's logic reads:
`segment_index` and the authoritative `duration`; `audio_path` is opaque —
whether loading it raises is an `AssembleEnv` oracle). -/
structure AudioSegment where
  segment_index : ℕ
  duration : ℚ
deriving DecidableEq

/-- `character_generator.CharacterVideo`: maps a `segment_index` to a video
file.  `duration` is the native duration of the file at `video_path`;
`videoW`/`videoH` are that file's pixel dimensions (read by `moviepy` when the
assembler loads it). -/
structure CharacterVideo where
  segment_index : ℕ
  duration : ℚ
  videoW : ℕ
  videoH : ℕ
deriving DecidableEq

/-- `video_assembler.VideoConfig`, defaults from `config.py`. -/
structure VideoConfig where
  width : ℕ
  height : ℕ
  fps : ℕ
  font : String
  title_font_size : ℕ
  story_font_size : ℕ
  commentary_font_size : ℕ
deriving DecidableEq

/-- The `config.py` defaults: 1080×1920 at 30 fps, font sizes 48/36/32. -/
def defaultVideoConfig : VideoConfig :=
  { width := 1080, height := 1920, fps := 30,
    font := "C:/Windows/Fonts/arial.ttf",
    title_font_size := 48, story_font_size := 36, commentary_font_size := 32 }

/-- `config.CHARACTER_SIZE = 0.35`. -/
def CHARACTER_SIZE : ℚ := 35/100

/-! ## Timeline arithmetic (`assemble_video`, lines 266–274 and 292–323) -/

/-- `gap_duration = 0.3` (line 271). -/
def gap_duration : ℚ := 3/10

/-- Lines 268–272: `total_duration = sum(seg.duration ...)` then
`total_duration += gap_duration * (len(audio_segments) - 1)`.
Python's `len(...) - 1` is integer arithmetic, so the empty list contributes
`-1` (there is no emptiness check in the source). -/
def computeTotalDuration (durations : List ℚ) : ℚ :=
  durations.sum + gap_duration * (((durations.length : ℤ) - 1 : ℤ) : ℚ)

/-- The per-segment `(start_time, duration)` schedule produced by the loop of
lines 292–323: `current_time` starts at `0` and each iteration executes
`current_time += audio_seg.duration + gap_duration`. -/
def buildStarts (t : ℚ) : List ℚ → List (ℚ × ℚ)
  | [] => []
  | d :: rest => (t, d) :: buildStarts (t + d + gap_duration) rest

/-- The timeline of a duration list, starting at time `0`. -/
def buildTimeline (durations : List ℚ) : List (ℚ × ℚ) :=
  buildStarts 0 durations

/-! ## Background clip (`_get_background_clip`, lines 60–87) -/

/-- Line 81: `loops_needed = int(duration / clip.duration) + 1`. -/
def loops_needed (clipDur duration : ℚ) : ℤ :=
  pyInt (duration / clipDur) + 1

/-- Duration of `clip.subclip(0, t1)` for a clip of duration `clipDur`
(`moviepy` semantics: a negative `t1` is interpreted as `clipDur + t1`;
a `t1` beyond the clip's end raises). `none` models the raised exception. -/
def subclip0_duration (clipDur t1 : ℚ) : Option ℚ :=
  let t1' := if t1 < 0 then clipDur + t1 else t1
  if t1' ≤ clipDur then some (t1' - 0) else none

/-- Duration of the layer returned by `_get_background_clip(duration)`.
`hasBackgrounds` models `self.background_videos` being non-empty and
`sourceDur` the duration of the randomly chosen source (after
`_resize_and_crop`, which does not change duration).  With no sources the
fallback `ColorClip(..., duration=duration)` is built without any validation
(lines 63–70).  Otherwise the clip is looped when too short (lines 80–82) and
trimmed by `subclip(0, duration)` (line 85); `none` models an uncaught
`moviepy` exception. -/
def get_background_clip_duration (hasBackgrounds : Bool) (sourceDur duration : ℚ) :
    Option ℚ :=
  if !hasBackgrounds then
    some duration
  else
    let looped :=
      if sourceDur < duration then ((loops_needed sourceDur duration : ℤ) : ℚ) * sourceDur
      else sourceDur
    subclip0_duration looped duration

/-! ## Resize and crop (`_resize_and_crop`, lines 89–111) -/

/-- Result of `_resize_and_crop`: which branch ran, the dimensions of the
resized frame, the crop window `[lo, hi)` along the cropped axis, and the
output dimensions.  `moviepy`'s `resize(height=h)` (resp. `width=w`) scales
the other dimension proportionally; `crop` keeps exactly the window. -/
structure CropResult where
  fitByHeight : Bool
  resizedW : ℚ
  resizedH : ℚ
  lo : ℚ
  hi : ℚ
  outW : ℚ
  outH : ℚ
deriving DecidableEq

/-- `_resize_and_crop` on a source of `w × h` pixels for a `cfgW × cfgH`
target.  Lines 91–92 compute the two ratios; line 94 branches on
`clip_ratio > target_ratio`.  In the first branch the source is resized to
height `cfgH` (actual width `w·cfgH/h`), the centering uses
`new_width = int(clip_ratio * new_height)` (line 97), and the crop keeps
`[x1, x1 + cfgW)`.  The second branch is symmetric with
`new_height = int(new_width / clip_ratio)` (line 105). -/
def resize_and_crop (cfgW cfgH w h : ℕ) : CropResult :=
  let target_ratio : ℚ := (cfgW : ℚ) / (cfgH : ℚ)
  let clip_ratio : ℚ := (w : ℚ) / (h : ℚ)
  if target_ratio < clip_ratio then
    let new_height : ℚ := (cfgH : ℚ)
    let new_width : ℚ := ((pyInt (clip_ratio * new_height) : ℤ) : ℚ)
    let x1 : ℚ := new_width / 2 - (cfgW : ℚ) / 2
    { fitByHeight := true
      resizedW := (w : ℚ) * new_height / (h : ℚ)
      resizedH := new_height
      lo := x1
      hi := x1 + (cfgW : ℚ)
      outW := (x1 + (cfgW : ℚ)) - x1
      outH := new_height }
  else
    let new_width : ℚ := (cfgW : ℚ)
    let new_height : ℚ := ((pyInt (new_width / clip_ratio) : ℤ) : ℚ)
    let y1 : ℚ := new_height / 2 - (cfgH : ℚ) / 2
    { fitByHeight := false
      resizedW := new_width
      resizedH := (h : ℚ) * new_width / (w : ℚ)
      lo := y1
      hi := y1 + (cfgH : ℚ)
      outW := new_width
      outH := (y1 + (cfgH : ℚ)) - y1 }

/-! ## Caption styling (`_create_text_clip`, lines 113–177) -/

/-- A caption's screen position: `("center", "center")`, or
`("center", y)` for a numeric vertical offset, or the plain `"center"`
string used by the fallback path (line 176). -/
inductive TextPos where
  | centerCenter : TextPos
  | centerY : ℚ → TextPos
  | centerStr : TextPos
deriving DecidableEq

/-- The styling chosen by lines 123–137 of `_create_text_clip`. -/
structure TextStyle where
  font_size : ℕ
  color : String
  pos : TextPos
  max_width : ℕ
deriving DecidableEq

/-- Lines 123–137: intro/outro → title size, white, centered, wrap 30;
otherwise commentator voice → commentary size, gold `#FFD700`, lower third
(`height * 0.75`), wrap 35; otherwise → story size, white, centered, wrap 35. -/
def text_style (cfg : VideoConfig) (segment_type voice : String) : TextStyle :=
  if segment_type = "intro" ∨ segment_type = "outro" then
    { font_size := cfg.title_font_size, color := "white",
      pos := TextPos.centerCenter, max_width := 30 }
  else if voice = "commentator" then
    { font_size := cfg.commentary_font_size, color := "#FFD700",
      pos := TextPos.centerY ((cfg.height : ℚ) * (75/100)), max_width := 35 }
  else
    { font_size := cfg.story_font_size, color := "white",
      pos := TextPos.centerCenter, max_width := 35 }

/-- A produced caption overlay.  `styled` records whether the primary
`method='caption'` clip succeeded or the plain fallback of lines 166–177 was
used (the fallback keeps the font size and color but resets the position to
the `"center"` string). -/
structure TextClipE where
  styled : Bool
  font_size : ℕ
  color : String
  pos : TextPos
  start : ℚ
  duration : ℚ
deriving DecidableEq

/-- `_create_text_clip`: the primary `TextClip` call sits in a
`try` (lines 149–164); on exception the fallback `TextClip` of lines 169–177
is built instead — and only an exception in the fallback itself would
propagate (`none`). -/
def create_text_clip (cfg : VideoConfig) (duration : ℚ) (segment_type voice : String)
    (styledFails fallbackFails : Bool) : Option TextClipE :=
  let st := text_style cfg segment_type voice
  if !styledFails then
    some { styled := true, font_size := st.font_size, color := st.color,
           pos := st.pos, start := 0, duration := duration }
  else if !fallbackFails then
    some { styled := false, font_size := st.font_size, color := st.color,
           pos := TextPos.centerStr, start := 0, duration := duration }
  else
    none

/-! ## Character overlay (`_get_character_position` lines 199–217,
`_create_character_clip` lines 219–254) -/

/-- A produced character overlay clip. -/
structure CharClip where
  start : ℚ
  duration : ℚ
  w : ℤ
  h : ℤ
  pos : ℤ × ℤ
  hasAudio : Bool
deriving DecidableEq

/-- `_get_character_position`: the five-entry anchor table of lines 204–215
with `margin = 20`, looked up at `config.CHARACTER_POSITION` with
`bottom_right` as the `.get` default.  `//` is Python floor division
(`Int.fdiv`). -/
def get_character_position (cfg : VideoConfig) (setting : String)
    (char_w char_h : ℤ) : ℤ × ℤ :=
  let margin : ℤ := 20
  if setting = "bottom_right" then
    ((cfg.width : ℤ) - char_w - margin, (cfg.height : ℤ) - char_h - margin)
  else if setting = "bottom_left" then
    (margin, (cfg.height : ℤ) - char_h - margin)
  else if setting = "top_right" then
    ((cfg.width : ℤ) - char_w - margin, margin + 60)
  else if setting = "top_left" then
    (margin + 200, margin)
  else if setting = "center_bottom" then
    (Int.fdiv ((cfg.width : ℤ) - char_w) 2, (cfg.height : ℤ) - char_h - margin)
  else
    ((cfg.width : ℤ) - char_w - margin, (cfg.height : ℤ) - char_h - margin)

/-- `_create_character_clip(character_video_path, duration, start_time)`.
The whole body is a `try` whose `except` returns `None` (lines 227–254), so
a load/transform failure yields `none` and never propagates.  On success:
`target_width = int(width * CHARACTER_SIZE)` (line 232), aspect-preserving
resize (lines 233–237), `set_start(start_time)` (line 240),
`set_duration(min(native, duration))` (line 241 — `resize` does not change
duration, so `char_clip.duration` there is the native duration), position
from the anchor table (line 244), `without_audio()` (line 248). -/
def create_character_clip (cfg : VideoConfig) (setting : String)
    (nativeW nativeH : ℕ) (native_duration : ℚ) (duration start_time : ℚ)
    (loadFails : Bool) : Option CharClip :=
  if loadFails then
    none
  else
    let target_width : ℤ := pyInt ((cfg.width : ℚ) * CHARACTER_SIZE)
    let scale_factor : ℚ := (target_width : ℚ) / (nativeW : ℚ)
    let target_height : ℤ := pyInt ((nativeH : ℚ) * scale_factor)
    some { start := start_time
           duration := min native_duration duration
           w := target_width
           h := target_height
           pos := get_character_position cfg setting target_width target_height
           hasAudio := false }

/-! ## Character-video index (`assemble_video`, lines 280–285) -/

/-- Lines 281–284: `char_video_map = {}` then
`for cv in character_videos: char_video_map[cv.segment_index] = cv`.
A later entry with the same `segment_index` silently overwrites an earlier
one. -/
def char_video_map (character_videos : List CharacterVideo) (idx : ℕ) :
    Option CharacterVideo :=
  (character_videos.foldl
    (fun m cv => fun j => if j = cv.segment_index then some cv else m j)
    (fun _ => none)) idx

/-! ## Full assembly (`assemble_video`, lines 256–380) -/

/-- Failure oracles for the `moviepy` calls issued by `assemble_video` and
`create_thumbnail`, indexed by loop position where relevant.
`hasBackgrounds` models `self.background_videos ≠ []` and
`bgSourceDuration` the duration of the randomly chosen source. -/
structure AssembleEnv where
  hasBackgrounds : Bool
  bgSourceDuration : ℚ
  bgLoadFails : Bool
  audioLoadFails : ℕ → Bool
  textStyledFails : ℕ → Bool
  textFallbackFails : ℕ → Bool
  charLoadFails : ℕ → Bool
  badgeFails : Bool
  renderFails : Bool

/-- An uncaught exception escaping `assemble_video`, tagged with the stage it
came from.  There are no repository-defined exception classes: these are the
raw library errors the source lets propagate. -/
inductive AbortError where
  | background : AbortError
  | indexError : ℕ → AbortError
  | audioLoad : ℕ → AbortError
  | textClip : ℕ → AbortError
  | compositeAudio : AbortError
  | render : AbortError
deriving DecidableEq

/-- The observable result of a successful `assemble_video` run. -/
structure AssembleOutput where
  totalDuration : ℚ
  backgroundDuration : ℚ
  audioStarts : List ℚ
  textClips : List TextClipE
  charClips : List CharClip
  badge : Bool
deriving DecidableEq

/-- The per-segment loop of lines 294–323, at loop position `i` and
`current_time = t`.  Per iteration: `script.segments[audio_seg.segment_index]`
(an out-of-range index raises `IndexError`, uncaught), `AudioFileClip` load
(uncaught on failure), `_create_text_clip` (propagates only if both its
primary and fallback clip constructions fail), optional character clip via
`char_video_map` (a failure there was already swallowed into `none`, line
320's `if char_clip:` just skips it), then
`current_time += audio_seg.duration + gap_duration`. -/
def assembleLoop (cfg : VideoConfig) (env : AssembleEnv) (setting : String)
    (script : GeneratedScript) (cvMap : ℕ → Option CharacterVideo) :
    ℕ → ℚ → List AudioSegment →
    Except AbortError (List ℚ × List TextClipE × List CharClip)
  | _, _, [] => Except.ok ([], [], [])
  | i, t, seg :: rest =>
    match script.segments.get? seg.segment_index with
    | none => Except.error (AbortError.indexError i)
    | some sseg =>
      if env.audioLoadFails i then Except.error (AbortError.audioLoad i)
      else
        match create_text_clip cfg seg.duration sseg.type sseg.voice
            (env.textStyledFails i) (env.textFallbackFails i) with
        | none => Except.error (AbortError.textClip i)
        | some tc =>
          let tc := { tc with start := t }
          let charOpt : Option CharClip :=
            match cvMap seg.segment_index with
            | none => none
            | some cv =>
              create_character_clip cfg setting cv.videoW cv.videoH
                cv.duration seg.duration t (env.charLoadFails i)
          match assembleLoop cfg env setting script cvMap (i + 1)
              (t + seg.duration + gap_duration) rest with
          | Except.error e => Except.error e
          | Except.ok (starts, texts, chars) =>
            Except.ok (t :: starts, tc :: texts, charOpt.toList ++ chars)

/-- `assemble_video(script, audio_segments, output_path, character_videos)`.
In source order: total-duration arithmetic (lines 268–272, no emptiness
check), background clip (line 278 — `VideoFileClip` may raise, uncaught;
`subclip` past the end raises), character-video index (lines 281–284), the
per-segment loop (lines 294–323), the badge whose construction failure is
caught and dropped (lines 183–197 and 326–328), `CompositeAudioClip` (line
334 — raises on an empty clip list, since `moviepy` takes `max` of the
ends), and the final render (line 354, uncaught on failure). -/
def assemble_video (cfg : VideoConfig) (env : AssembleEnv) (setting : String)
    (script : GeneratedScript) (audio_segments : List AudioSegment)
    (character_videos : List CharacterVideo) :
    Except AbortError AssembleOutput :=
  let total := computeTotalDuration (audio_segments.map (fun s => s.duration))
  if env.hasBackgrounds && env.bgLoadFails then Except.error AbortError.background
  else
    match get_background_clip_duration env.hasBackgrounds env.bgSourceDuration total with
    | none => Except.error AbortError.background
    | some bgDur =>
      let cvMap := char_video_map character_videos
      match assembleLoop cfg env setting script cvMap 0 0 audio_segments with
      | Except.error e => Except.error e
      | Except.ok (starts, texts, chars) =>
        let badge := !env.badgeFails
        if starts.isEmpty then Except.error AbortError.compositeAudio
        else if env.renderFails then Except.error AbortError.render
        else
          Except.ok { totalDuration := total, backgroundDuration := bgDur,
                      audioStarts := starts, textClips := texts,
                      charClips := chars, badge := badge }

/-- `true` iff the run returned normally (`return True` on line 380). -/
def assembleOk (r : Except AbortError AssembleOutput) : Bool :=
  match r with
  | Except.ok _ => true
  | Except.error _ => false

/-- The character overlays of a run that returned normally. -/
def assembledCharClips (r : Except AbortError AssembleOutput) : List CharClip :=
  match r with
  | Except.ok out => out.charClips
  | Except.error _ => []

/-- The total duration of a run that returned normally. -/
def assembledTotal (r : Except AbortError AssembleOutput) : Option ℚ :=
  match r with
  | Except.ok out => some out.totalDuration
  | Except.error _ => none

/-! ## Thumbnail (`create_thumbnail`, lines 382–454) -/

/-- An exception escaping `create_thumbnail`. -/
inductive ThumbnailAbort where
  | backgroundLoad : ThumbnailAbort
deriving DecidableEq

/-- `create_thumbnail(script, output_path)`.  When background sources exist,
lines 390–395 (`VideoFileClip`, `_resize_and_crop`, `get_frame(1)`,
`close`) run **outside** any `try`: a failure there propagates to the
caller.  The `try` of lines 412–450 covers only the title clip, badge,
composite and `save_frame`; its `except` (lines 452–454) returns `False`. -/
def create_thumbnail (hasBackgrounds bgLoadFails renderFails : Bool) :
    Except ThumbnailAbort Bool :=
  if hasBackgrounds && bgLoadFails then Except.error ThumbnailAbort.backgroundLoad
  else if renderFails then Except.ok false
  else Except.ok true

/-! ## Concrete fixtures -/

/-- The all-benign environment: no background sources configured, no library
call fails. -/
def benignEnv : AssembleEnv :=
  { hasBackgrounds := false, bgSourceDuration := 0, bgLoadFails := false,
    audioLoadFails := fun _ => false, textStyledFails := fun _ => false,
    textFallbackFails := fun _ => false, charLoadFails := fun _ => false,
    badgeFails := false, renderFails := false }

/-- Like `benignEnv`, but every character-video load raises inside
`_create_character_clip`. -/
def envCharFail : AssembleEnv :=
  { benignEnv with charLoadFails := fun _ => true }

/-- A one-segment script: a commentary segment voiced by the commentator. -/
def scriptEx : GeneratedScript :=
  { story_id := "s1", title := "t", subreddit := "tifu",
    segments := [{ type := "commentary", voice := "commentator",
                   text := "x", display_text := "x" }] }

/-- A script with no segments, matching an empty audio-segment sequence. -/
def emptyScript : GeneratedScript :=
  { story_id := "s0", title := "t", subreddit := "tifu", segments := [] }

/-- One two-second audio segment for segment index `0`. -/
def segsEx : List AudioSegment := [{ segment_index := 0, duration := 2 }]

/-- One 2.5-second 512×512 character video for segment index `0`. -/
def cvsEx : List CharacterVideo :=
  [{ segment_index := 0, duration := 5/2, videoW := 512, videoH := 512 }]

/-! ## Timeline lemmas -/

/-- Closed form for the entries of the schedule: the `i`-th start time is the
base time plus the durations scheduled so far plus `i` gaps, and the `i`-th
duration is the `i`-th input duration. -/
lemma buildStarts_get? (t : ℚ) (ds : List ℚ) (i : ℕ) (p : ℚ × ℚ)
    (h : (buildStarts t ds).get? i = some p) :
    p.1 = t + (ds.take i).sum + gap_duration * i ∧ ds.get? i = some p.2 := by
  induction ds generalizing t i p with
  | nil => simp [buildStarts] at h
  | cons d rest ih =>
    cases i with
    | zero =>
      simp only [buildStarts, List.get?] at h
      obtain rfl : (t, d) = p := by simpa using h
      simp
    | succ n =>
      simp only [buildStarts, List.get?] at h
      obtain ⟨h1, h2⟩ := ih (t + d + gap_duration) n p h
      refine ⟨?_, by simpa using h2⟩
      rw [h1, List.take_succ_cons, List.sum_cons]
      push_cast
      ring

/-- The last schedule entry of a non-empty duration list ends at
`t + Σdᵢ + gap · (n − 1)`. -/
lemma buildStarts_getLast (t d : ℚ) (ds : List ℚ) :
    ∃ p, (buildStarts t (d :: ds)).getLast? = some p ∧
      p.1 + p.2 = t + (d :: ds).sum + gap_duration * (ds.length : ℚ) := by
  induction ds generalizing t d with
  | nil => exact ⟨(t, d), by simp [buildStarts], by simp⟩
  | cons d2 rest ih =>
    obtain ⟨p, hp, hsum⟩ := ih (t + d + gap_duration) d2
    refine ⟨p, ?_, ?_⟩
    · have hunf : buildStarts t (d :: d2 :: rest) =
          (t, d) :: (t + d + gap_duration, d2) ::
            buildStarts (t + d + gap_duration + d2 + gap_duration) rest := rfl
      have hunf2 : buildStarts (t + d + gap_duration) (d2 :: rest) =
          (t + d + gap_duration, d2) ::
            buildStarts (t + d + gap_duration + d2 + gap_duration) rest := rfl
      rw [hunf, List.getLast?_cons_cons, ← hunf2]
      exact hp
    · rw [hsum]
      simp only [List.sum_cons, List.length_cons]
      push_cast
      ring

/-- C3. For every non-empty audio-segment sequence with durations `d₁..dₙ`,
the `total_duration` computed by `assemble_video` equals `Σdᵢ + 0.3·(n−1)`;
the first segment starts at time `0` (no gap before the first) and the last
segment ends exactly at `total_duration` (no gap after the last), the gap
being inserted only between consecutive pairs. -/
theorem claim_C3 (ds : List ℚ) (h : ds ≠ []) :
    computeTotalDuration ds = ds.sum + gap_duration * ((ds.length - 1 : ℕ) : ℚ) ∧
    ((buildTimeline ds).head?).map Prod.fst = some 0 ∧
    ∃ p, (buildTimeline ds).getLast? = some p ∧
      p.1 + p.2 = computeTotalDuration ds := by
  match ds, h with
  | d :: rest, _ =>
    refine ⟨?_, ?_, ?_⟩
    · simp only [computeTotalDuration, List.length_cons, Nat.add_sub_cancel]
      push_cast
      ring
    · simp [buildTimeline, buildStarts]
    · obtain ⟨p, hp, hsum⟩ := buildStarts_getLast 0 d rest
      refine ⟨p, hp, ?_⟩
      rw [hsum]
      simp only [computeTotalDuration, List.length_cons]
      push_cast
      ring

/-- Witness for C3 at the concrete duration list `[2, 3]`. -/
theorem claim_C3_witness :
    ([2, 3] : List ℚ) ≠ [] ∧
    (computeTotalDuration [2, 3] =
        ([2, 3] : List ℚ).sum + gap_duration * ((([2, 3] : List ℚ).length - 1 : ℕ) : ℚ) ∧
      ((buildTimeline [2, 3]).head?).map Prod.fst = some 0 ∧
      ∃ p, (buildTimeline [2, 3]).getLast? = some p ∧
        p.1 + p.2 = computeTotalDuration [2, 3]) :=
  ⟨by decide, claim_C3 [2, 3] (by decide)⟩

/-- C4. For every non-empty audio-segment sequence with non-negative
durations, consecutive schedule entries satisfy
`start_{i+1} = start_i + duration_i + gap` — hence segments never overlap
(`start_{i+1} ≥ start_i + duration_i`) and start times are monotonically
non-decreasing. -/
theorem claim_C4 (ds : List ℚ) (hpos : ∀ d ∈ ds, 0 ≤ d) (i : ℕ) (p q : ℚ × ℚ)
    (hp : (buildTimeline ds).get? i = some p)
    (hq : (buildTimeline ds).get? (i + 1) = some q) :
    q.1 = p.1 + p.2 + gap_duration ∧ p.1 + p.2 ≤ q.1 ∧ p.1 ≤ q.1 := by
  obtain ⟨hp1, hp2⟩ := buildStarts_get? 0 ds i p hp
  obtain ⟨hq1, hq2⟩ := buildStarts_get? 0 ds (i + 1) q hq
  have hp2' : ds[i]? = some p.2 := by
    rw [← List.get?_eq_getElem?]
    exact hp2
  have htake : (ds.take (i + 1)).sum = (ds.take i).sum + p.2 := by
    rw [List.take_succ, hp2']
    simp
  have hgap : q.1 = p.1 + p.2 + gap_duration := by
    rw [hq1, hp1, htake]
    push_cast
    ring
  have hdpos : 0 ≤ p.2 := hpos p.2 (List.get?_mem hp2)
  have hgap0 : (0 : ℚ) < gap_duration := by norm_num [gap_duration]
  exact ⟨hgap, by linarith, by linarith⟩

/-- Witness for C4 at durations `[2, 3]`, adjacent pair at index `0`. -/
theorem claim_C4_witness :
    (∀ d ∈ ([2, 3] : List ℚ), 0 ≤ d) ∧
    (buildTimeline [2, 3]).get? 0 = some (0, 2) ∧
    (buildTimeline [2, 3]).get? 1 = some (23/10, 3) ∧
    (((23/10 : ℚ), (3 : ℚ)).1 = ((0 : ℚ), (2 : ℚ)).1 + ((0 : ℚ), (2 : ℚ)).2 + gap_duration ∧
      ((0 : ℚ), (2 : ℚ)).1 + ((0 : ℚ), (2 : ℚ)).2 ≤ ((23/10 : ℚ), (3 : ℚ)).1 ∧
      ((0 : ℚ), (2 : ℚ)).1 ≤ ((23/10 : ℚ), (3 : ℚ)).1) := by
  have h1 : (buildTimeline [2, 3]).get? 0 = some (0, 2) := by
    norm_num [buildTimeline, buildStarts]
  have h2 : (buildTimeline [2, 3]).get? (0 + 1) = some (23/10, 3) := by
    norm_num [buildTimeline, buildStarts, gap_duration]
  exact ⟨by norm_num, h1, h2, claim_C4 [2, 3] (by norm_num) 0 (0, 2) (23/10, 3) h1 h2⟩

/-! ## Background clip lemmas -/

/-- C5. When the chosen background source is shorter than the required
duration (`s < D`), `_get_background_clip` loops it a whole number of times
(`loops_needed ≥ 1`), the looped copy covers the requirement
(`D ≤ loops · s`), and the trim `subclip(0, D)` makes the returned layer's
duration exactly `D`. -/
theorem claim_C5 (s D : ℚ) (hs : 0 < s) (hsD : s < D) :
    get_background_clip_duration true s D = some D ∧
    D ≤ ((loops_needed s D : ℤ) : ℚ) * s ∧
    1 ≤ loops_needed s D := by
  have hD : 0 < D := hs.trans hsD
  have hdiv : (1 : ℚ) ≤ D / s := (one_le_div hs).mpr hsD.le
  have hpy : pyInt (D / s) = ⌊D / s⌋ := if_pos (le_trans zero_le_one hdiv)
  have hfl : (1 : ℤ) ≤ ⌊D / s⌋ := by
    rw [Int.le_floor]
    exact_mod_cast hdiv
  have hloops : loops_needed s D = ⌊D / s⌋ + 1 := by
    rw [loops_needed, hpy]
  have hcover : D < ((⌊D / s⌋ + 1 : ℤ) : ℚ) * s := by
    have h1 : D / s < (⌊D / s⌋ : ℚ) + 1 := Int.lt_floor_add_one _
    have h2 := mul_lt_mul_of_pos_right h1 hs
    rw [div_mul_cancel₀ D hs.ne'] at h2
    push_cast
    linarith
  have hle : D ≤ ((loops_needed s D : ℤ) : ℚ) * s := by
    rw [hloops]
    exact hcover.le
  refine ⟨?_, hle, by rw [hloops]; omega⟩
  have hne : ¬ D < 0 := not_lt.mpr hD.le
  simp only [get_background_clip_duration, Bool.not_true, Bool.false_eq_true,
    if_false, if_pos hsD, subclip0_duration, if_neg hne, if_pos hle, sub_zero]

/-- Witness for C5 at source duration `2`, required duration `5`. -/
theorem claim_C5_witness :
    ((0 : ℚ) < 2 ∧ (2 : ℚ) < 5) ∧
    (get_background_clip_duration true 2 5 = some 5 ∧
      (5 : ℚ) ≤ ((loops_needed 2 5 : ℤ) : ℚ) * 2 ∧
      1 ≤ loops_needed 2 5) :=
  ⟨⟨by norm_num, by norm_num⟩, claim_C5 2 5 (by norm_num) (by norm_num)⟩

/-! ## Resize-and-crop lemmas -/

/-- C6. For every source clip with positive dimensions and positive target
dimensions, `_resize_and_crop` fits by height and crops width exactly when
the source ratio exceeds the target ratio (else fits by width and crops
height), the output has exactly the target width and height, and the crop
window lies inside the resized frame (no letterboxing). -/
theorem claim_C6 (cfgW cfgH w h : ℕ) (hW : 0 < cfgW) (hH : 0 < cfgH)
    (hw : 0 < w) (hh : 0 < h) :
    (resize_and_crop cfgW cfgH w h).outW = cfgW ∧
    (resize_and_crop cfgW cfgH w h).outH = cfgH ∧
    0 ≤ (resize_and_crop cfgW cfgH w h).lo ∧
    ((resize_and_crop cfgW cfgH w h).fitByHeight = true →
      (resize_and_crop cfgW cfgH w h).hi ≤ (resize_and_crop cfgW cfgH w h).resizedW) ∧
    ((resize_and_crop cfgW cfgH w h).fitByHeight = false →
      (resize_and_crop cfgW cfgH w h).hi ≤ (resize_and_crop cfgW cfgH w h).resizedH) ∧
    ((resize_and_crop cfgW cfgH w h).fitByHeight = true ↔
      (cfgW : ℚ) / (cfgH : ℚ) < (w : ℚ) / (h : ℚ)) := by
  have hWQ : (0 : ℚ) < cfgW := by exact_mod_cast hW
  have hHQ : (0 : ℚ) < cfgH := by exact_mod_cast hH
  have hwQ : (0 : ℚ) < w := by exact_mod_cast hw
  have hhQ : (0 : ℚ) < h := by exact_mod_cast hh
  by_cases hr : (cfgW : ℚ) / cfgH < (w : ℚ) / h
  · have hq0 : (0 : ℚ) ≤ (w : ℚ) / h * cfgH := by positivity
    have hpy : pyInt ((w : ℚ) / h * cfgH) = ⌊(w : ℚ) / h * cfgH⌋ := if_pos hq0
    have hWq : (cfgW : ℚ) < (w : ℚ) / h * cfgH := by
      calc (cfgW : ℚ) = (cfgW : ℚ) / cfgH * cfgH := by field_simp
      _ < (w : ℚ) / h * cfgH := mul_lt_mul_of_pos_right hr hHQ
    have hWfl : (cfgW : ℚ) ≤ ((⌊(w : ℚ) / h * cfgH⌋ : ℤ) : ℚ) := by
      have hz : (cfgW : ℤ) ≤ ⌊(w : ℚ) / h * cfgH⌋ := by
        rw [Int.le_floor]
        push_cast
        exact hWq.le
      exact_mod_cast hz
    have hflle : ((⌊(w : ℚ) / h * cfgH⌋ : ℤ) : ℚ) ≤ (w : ℚ) / h * cfgH :=
      Int.floor_le _
    have heq : (w : ℚ) / h * cfgH = (w : ℚ) * cfgH / h := by ring
    simp only [resize_and_crop, if_pos hr, hpy]
    refine ⟨by ring, trivial, by linarith, fun _ => by linarith, ?_, by simp [hr]⟩
    intro habs
    exact absurd habs (by simp)
  · have hq0 : (0 : ℚ) ≤ (cfgW : ℚ) / ((w : ℚ) / h) := by positivity
    have hpy : pyInt ((cfgW : ℚ) / ((w : ℚ) / h)) = ⌊(cfgW : ℚ) / ((w : ℚ) / h)⌋ :=
      if_pos hq0
    have hcross : (w : ℚ) * cfgH ≤ (cfgW : ℚ) * h :=
      (div_le_div_iff₀ hhQ hHQ).mp (not_lt.mp hr)
    have hq'eq : (cfgW : ℚ) / ((w : ℚ) / h) = (cfgW : ℚ) * h / w :=
      div_div_eq_mul_div _ _ _
    have hHq : (cfgH : ℚ) ≤ (cfgW : ℚ) / ((w : ℚ) / h) := by
      rw [hq'eq, le_div_iff₀ hwQ]
      linarith
    have hHfl : (cfgH : ℚ) ≤ ((⌊(cfgW : ℚ) / ((w : ℚ) / h)⌋ : ℤ) : ℚ) := by
      have hz : (cfgH : ℤ) ≤ ⌊(cfgW : ℚ) / ((w : ℚ) / h)⌋ := by
        rw [Int.le_floor]
        push_cast
        exact hHq
      exact_mod_cast hz
    have hflle : ((⌊(cfgW : ℚ) / ((w : ℚ) / h)⌋ : ℤ) : ℚ) ≤ (cfgW : ℚ) / ((w : ℚ) / h) :=
      Int.floor_le _
    have heq : (cfgW : ℚ) / ((w : ℚ) / h) = (h : ℚ) * cfgW / w := by
      rw [hq'eq]
      ring
    simp only [resize_and_crop, if_neg hr, hpy]
    refine ⟨trivial, by ring, by linarith, ?_, fun _ => by linarith, by simp [hr]⟩
    intro habs
    exact absurd habs (by simp)

/-- Witness for C6: a 1920×1080 landscape source cropped for the default
1080×1920 portrait target (the fit-by-height branch). -/
theorem claim_C6_witness :
    ((0 : ℕ) < 1080 ∧ (0 : ℕ) < 1920) ∧
    ((resize_and_crop 1080 1920 1920 1080).outW = 1080 ∧
      (resize_and_crop 1080 1920 1920 1080).outH = 1920 ∧
      0 ≤ (resize_and_crop 1080 1920 1920 1080).lo ∧
      ((resize_and_crop 1080 1920 1920 1080).fitByHeight = true →
        (resize_and_crop 1080 1920 1920 1080).hi ≤
          (resize_and_crop 1080 1920 1920 1080).resizedW) ∧
      ((resize_and_crop 1080 1920 1920 1080).fitByHeight = false →
        (resize_and_crop 1080 1920 1920 1080).hi ≤
          (resize_and_crop 1080 1920 1920 1080).resizedH) ∧
      ((resize_and_crop 1080 1920 1920 1080).fitByHeight = true ↔
        (1080 : ℚ) / (1920 : ℚ) < (1920 : ℚ) / (1080 : ℚ))) :=
  ⟨⟨by norm_num, by norm_num⟩,
    claim_C6 1080 1920 1920 1080 (by norm_num) (by norm_num) (by norm_num) (by norm_num)⟩

/-! ## Character overlay lemmas -/

/-- C7. For every segment with an associated character clip whose load
succeeds, `_create_character_clip` returns a clip that starts at the passed
segment start time and lasts `min(native duration, segment duration)` — so
it never exceeds either the native clip length (no stretching/looping) or
the segment's slot — and whose own audio track is discarded
(`without_audio`). -/
theorem claim_C7 (cfg : VideoConfig) (setting : String) (nw nh : ℕ)
    (native_duration seg_duration start_time : ℚ) :
    ∃ c, create_character_clip cfg setting nw nh native_duration seg_duration
        start_time false = some c ∧
      c.start = start_time ∧
      c.duration = min native_duration seg_duration ∧
      c.duration ≤ native_duration ∧
      c.duration ≤ seg_duration ∧
      c.hasAudio = false :=
  ⟨_, rfl, rfl, rfl, min_le_left _ _, min_le_right _ _, rfl⟩

/-! ## Caption styling lemmas -/

/-- C8. The caption styling lookup of `_create_text_clip` is a pure function
of `(segment type, voice)` — equal inputs give identical font size, color
and position — and it matches the styling table: intro/outro → title size,
white, screen center; otherwise commentator voice → commentary size, gold,
lower third at 75% of frame height; all remaining segments → story size,
white, screen center. -/
theorem claim_C8 (cfg : VideoConfig) (ty v ty2 v2 : String) :
    (ty = ty2 → v = v2 → text_style cfg ty v = text_style cfg ty2 v2) ∧
    (ty = "intro" ∨ ty = "outro" →
      text_style cfg ty v =
        { font_size := cfg.title_font_size, color := "white",
          pos := TextPos.centerCenter, max_width := 30 }) ∧
    (¬(ty = "intro" ∨ ty = "outro") → v = "commentator" →
      text_style cfg ty v =
        { font_size := cfg.commentary_font_size, color := "#FFD700",
          pos := TextPos.centerY ((cfg.height : ℚ) * (75/100)), max_width := 35 }) ∧
    (¬(ty = "intro" ∨ ty = "outro") → ¬(v = "commentator") →
      text_style cfg ty v =
        { font_size := cfg.story_font_size, color := "white",
          pos := TextPos.centerCenter, max_width := 35 }) := by
  refine ⟨fun h1 h2 => by rw [h1, h2], fun hio => ?_, fun hio hc => ?_, fun hio hc => ?_⟩
  · rw [text_style, if_pos hio]
  · rw [text_style, if_neg hio, if_pos hc]
  · rw [text_style, if_neg hio, if_neg hc]

/-- Witness for C8: a commentary segment voiced by the commentator under the
default configuration gets the commentary font size, gold, lower third at
`1920 · 0.75 = 1440`. -/
theorem claim_C8_witness :
    text_style defaultVideoConfig "commentary" "commentator" =
      { font_size := 32, color := "#FFD700",
        pos := TextPos.centerY 1440, max_width := 35 } := by
  have h := (claim_C8 defaultVideoConfig "commentary" "commentator"
    "commentary" "commentator").2.2.1 (by decide) rfl
  rw [h]
  norm_num [defaultVideoConfig]

/-! ## Character-video index lemmas -/

/-- Folding the insertion loop over any starting map looks up to the last
matching entry, falling back to the starting map. -/
lemma char_fold_eq (cvs : List CharacterVideo) (m : ℕ → Option CharacterVideo)
    (idx : ℕ) :
    (cvs.foldl
        (fun m cv => fun j => if j = cv.segment_index then some cv else m j)
        m) idx =
      ((cvs.filter (fun cv => cv.segment_index == idx)).getLast?).elim (m idx) some := by
  induction cvs generalizing m with
  | nil => simp
  | cons cv rest ih =>
    rw [List.foldl_cons, ih]
    by_cases hcv : cv.segment_index = idx
    · rw [List.filter_cons_of_pos (by simpa using hcv)]
      cases hfp : rest.filter (fun cv => cv.segment_index == idx) with
      | nil => simp [hfp, hcv]
      | cons b l =>
        rw [List.getLast?_cons_cons]
        cases h2 : (b :: l).getLast? with
        | none => simp at h2
        | some x => rfl
    · rw [List.filter_cons_of_neg (by simpa using hcv)]
      have hne : ¬ idx = cv.segment_index := fun hh => hcv hh.symm
      simp [hne]

/-- C10. The per-segment character-video index built by `assemble_video` maps
each segment index to the **last** entry of `character_videos` carrying that
index (a later duplicate silently overwrites an earlier one), and to at most
one entry (`Option`), so at most one character overlay is produced per
segment. -/
theorem claim_C10 (cvs : List CharacterVideo) (idx : ℕ) :
    char_video_map cvs idx =
      (cvs.filter (fun cv => cv.segment_index == idx)).getLast? := by
  rw [char_video_map, char_fold_eq]
  cases (cvs.filter (fun cv => cv.segment_index == idx)).getLast? <;> rfl

/-! ## Error-handling lemmas -/

/-- C1. `assemble_video` performs no emptiness check: on an empty
audio-segment sequence the total duration evaluates to
`0 + 0.3 · (0 − 1) = −0.3`, the background stage still returns a (solid
color) layer of that negative duration, and the run only dies later with an
untyped library error when `CompositeAudioClip` is given an empty clip list —
there is no `InvalidInputError` anywhere (the repository defines no such
class). -/
theorem claim_C1 :
    computeTotalDuration [] = -(3/10) ∧
    get_background_clip_duration false 0 (computeTotalDuration []) = some (-(3/10)) ∧
    assemble_video defaultVideoConfig benignEnv "bottom_right" emptyScript [] [] =
      Except.error AbortError.compositeAudio := by
  have h0 : computeTotalDuration [] = -(3/10) := by
    norm_num [computeTotalDuration, gap_duration]
  refine ⟨h0, ?_, rfl⟩
  rw [h0]
  rfl

/-- Counterexample to C2 as stated: a run in which the (only) character
overlay's load fails (`charLoadFails 0 = true`) yet assembly returns
normally with an output that simply has no character overlays — the failure
neither aborts assembly nor surfaces an error. -/
theorem claim_C2_counterexample :
    envCharFail.charLoadFails 0 = true ∧
    assembleOk (assemble_video defaultVideoConfig envCharFail "bottom_right"
      scriptEx segsEx cvsEx) = true ∧
    assembledCharClips (assemble_video defaultVideoConfig envCharFail "bottom_right"
      scriptEx segsEx cvsEx) = [] := by
  refine ⟨rfl, ?_, ?_⟩ <;> rfl

/-- `_create_text_clip` always returns a clip when its fallback construction
succeeds, whether or not the styled construction fails. -/
lemma create_text_clip_isSome (cfg : VideoConfig) (d : ℚ) (ty v : String)
    (s : Bool) :
    ∃ tc, create_text_clip cfg d ty v s false = some tc := by
  cases s
  · exact ⟨_, rfl⟩
  · exact ⟨_, rfl⟩

/-- The per-segment loop returns normally whenever every `segment_index` is
in range, no audio load fails and no caption fallback fails — regardless of
character-clip failures and styled-caption failures — and produces one start
time per audio segment. -/
lemma assembleLoop_ok (cfg : VideoConfig) (env : AssembleEnv) (setting : String)
    (script : GeneratedScript) (cvMap : ℕ → Option CharacterVideo)
    (haud : ∀ i, env.audioLoadFails i = false)
    (hfb : ∀ i, env.textFallbackFails i = false) :
    ∀ (segs : List AudioSegment) (i : ℕ) (t : ℚ),
      (∀ seg ∈ segs, seg.segment_index < script.segments.length) →
      ∃ r, assembleLoop cfg env setting script cvMap i t segs = Except.ok r ∧
        r.1.length = segs.length := by
  intro segs
  induction segs with
  | nil => exact fun i t _ => ⟨([], [], []), rfl, rfl⟩
  | cons seg rest ih =>
    intro i t hidx
    have hseg : seg.segment_index < script.segments.length := hidx seg (by simp)
    have hsseg : script.segments.get? seg.segment_index =
        some (script.segments.get ⟨seg.segment_index, hseg⟩) := by
      rw [List.get?_eq_getElem?]
      exact List.getElem?_eq_getElem hseg
    obtain ⟨tc, htc⟩ := create_text_clip_isSome cfg seg.duration
      (script.segments.get ⟨seg.segment_index, hseg⟩).type
      (script.segments.get ⟨seg.segment_index, hseg⟩).voice
      (env.textStyledFails i)
    have htc' : create_text_clip cfg seg.duration
        (script.segments.get ⟨seg.segment_index, hseg⟩).type
        (script.segments.get ⟨seg.segment_index, hseg⟩).voice
        (env.textStyledFails i) (env.textFallbackFails i) = some tc := by
      rw [hfb i]
      exact htc
    obtain ⟨⟨sts, txs, chs⟩, hloop, hlen⟩ :=
      ih (i + 1) (t + seg.duration + gap_duration)
        (fun s hs => hidx s (List.mem_cons_of_mem _ hs))
    refine ⟨(t :: sts, { tc with start := t } :: txs,
      (match cvMap seg.segment_index with
        | none => none
        | some cv =>
          create_character_clip cfg setting cv.videoW cv.videoH
            cv.duration seg.duration t (env.charLoadFails i)).toList ++ chs),
      ?_, by simpa using hlen⟩
    simp only [assembleLoop, hsseg, haud i, Bool.false_eq_true, if_false, htc', hloop]

/-- C2, amended. A background-source load failure aborts the whole assembly
with a background-stage error; but a styled-caption creation failure merely
falls back to a plain caption and a character-overlay creation failure is
swallowed (the overlay is skipped), so with sound audio files, in-range
segment indices, a working caption fallback and a working final render,
assembly returns normally and produces an output regardless of caption- and
character-stage failures. -/
theorem claim_C2_amended (cfg : VideoConfig) (env : AssembleEnv) (setting : String)
    (script : GeneratedScript) (segs : List AudioSegment)
    (cvs : List CharacterVideo)
    (hbg : env.hasBackgrounds = false)
    (hidx : ∀ seg ∈ segs, seg.segment_index < script.segments.length)
    (haud : ∀ i, env.audioLoadFails i = false)
    (hfb : ∀ i, env.textFallbackFails i = false)
    (hr : env.renderFails = false)
    (hne : segs ≠ []) :
    (∃ out, assemble_video cfg env setting script segs cvs = Except.ok out) ∧
    (∀ env2 : AssembleEnv, env2.hasBackgrounds = true → env2.bgLoadFails = true →
      assemble_video cfg env2 setting script segs cvs =
        Except.error AbortError.background) := by
  constructor
  · obtain ⟨⟨sts, txs, chs⟩, hloop, hlen⟩ :=
      assembleLoop_ok cfg env setting script (char_video_map cvs) haud hfb segs 0 0 hidx
    have hsne : sts.isEmpty = false := by
      rcases sts with _ | ⟨a, sts⟩
      · exact absurd (by simpa using hlen.symm) (by simpa using hne)
      · rfl
    refine ⟨{ totalDuration := computeTotalDuration (segs.map (fun s => s.duration)),
              backgroundDuration := computeTotalDuration (segs.map (fun s => s.duration)),
              audioStarts := sts, textClips := txs, charClips := chs,
              badge := !env.badgeFails }, ?_⟩
    simp only [assemble_video, hbg, Bool.false_and, Bool.false_eq_true, if_false,
      get_background_clip_duration, Bool.not_false, if_true, hloop, hsne, hr]
  · intro env2 h1 h2
    simp only [assemble_video, h1, h2, Bool.and_self, if_true]

/-- Witness for the amended C2: a one-segment commentary script, no
background sources, all loads sound. -/
theorem claim_C2_witness :
    (benignEnv.hasBackgrounds = false ∧
      (∀ seg ∈ segsEx, seg.segment_index < scriptEx.segments.length) ∧
      (∀ i, benignEnv.audioLoadFails i = false) ∧
      (∀ i, benignEnv.textFallbackFails i = false) ∧
      benignEnv.renderFails = false ∧ segsEx ≠ []) ∧
    ((∃ out, assemble_video defaultVideoConfig benignEnv "bottom_right"
        scriptEx segsEx [] = Except.ok out) ∧
      (∀ env2 : AssembleEnv, env2.hasBackgrounds = true → env2.bgLoadFails = true →
        assemble_video defaultVideoConfig env2 "bottom_right" scriptEx segsEx [] =
          Except.error AbortError.background)) :=
  ⟨⟨rfl, by decide, fun _ => rfl, fun _ => rfl, rfl, by decide⟩,
    claim_C2_amended defaultVideoConfig benignEnv "bottom_right" scriptEx segsEx []
      rfl (by decide) (fun _ => rfl) (fun _ => rfl) rfl (by decide)⟩

/-- Counterexample to C9 as stated: when background sources exist and the
background load/sample fails, `create_thumbnail` propagates the exception to
its caller instead of returning `False` — the loading lines run outside the
`try`. -/
theorem claim_C9_counterexample :
    create_thumbnail true true false =
      Except.error ThumbnailAbort.backgroundLoad := rfl

/-- C9, amended. As long as the background load/sample step does not fail,
`create_thumbnail` never propagates an exception: a failure in the guarded
rendering phase (title clip, badge, composite, save) is reported as a
`False` return, and success as `True`. -/
theorem claim_C9_amended (hasBackgrounds renderFails : Bool) :
    create_thumbnail hasBackgrounds false renderFails = Except.ok (!renderFails) := by
  cases hasBackgrounds <;> cases renderFails <;> rfl

end RedditReader
